import Mathlib

/-!
Verification of the goclaw repository's persistent-browser command server
(`skills/patchright-skill/scripts/server.py`, `executor.py`) and the batch
crawler (`skills/crawl4ai-skill/scripts/batch_crawler.py`), as a shallow
embedding in Lean 4.

External library calls (the stealth browser driver, the socket layer, the
crawling library) are modelled by an `Env` oracle: each external call is a
field of `Env` returning `Except String α`, where `Except.error msg`
represents the call raising a Python exception with text `msg`. Python
`None` of an optional handle is `Option.none`; a live handle is
`Option.some id` for an abstract id. A handler body that can raise is a
Lean function returning `HResult × state`: `HResult.exn msg` is an
uncaught exception carrying the mutated-so-far state, mirroring Python's
statement-by-statement mutation of `self` / module globals.
-/

namespace GoClaw

/-- A command response: the JSON dictionary written back to the client.
`status` is the Python string of the `"status"` key; each further field is
`some v` when the corresponding key is present in the dictionary. -/
structure Response where
  status : String
  message : Option String := none
  url : Option String := none
  title : Option String := none
  path : Option String := none
  text : Option (Option String) := none
  result : Option String := none
  selector : Option String := none
  base64 : Option String := none
  browser : Option Bool := none
  page : Option Bool := none
  deriving Repr, DecidableEq

/-- The defined status tags of the spec's Command Response data model. -/
def statusTags : List String := ["success", "error", "already_running", "not_running"]

/-- The `args` mapping of a command request, restricted to the argument
names the registered tools read; a key absent from the JSON dictionary is
`none`. -/
structure Args where
  headless : Option Bool := none
  url : Option String := none
  path : Option String := none
  full_page : Option Bool := none
  selector : Option String := none
  text : Option String := none
  script : Option String := none
  timeout : Option Nat := none
  deriving Repr, DecidableEq

/-- Python's rendering of a value that may be `None` inside an f-string:
`data.get("tool")` interpolated into `f"Unknown tool: \x7btool\x7d"`. -/
def pyStr : Option String → String
  | some s => s
  | none => "None"

/-- `str(KeyError(k))` — the message of a missing-key lookup `args[k]`. -/
def keyErr (k : String) : String := "\x27" ++ k ++ "\x27"

/-- `str(TypeError(...))` for a required keyword argument missing from a
`fn(**args)` call in the executor. -/
def missingArg (fn k : String) : String :=
  fn ++ "() missing 1 required positional argument: " ++ keyErr k

/-- `str(TypeError(...))` for a keyword in a `fn(**args)` call that the
function's signature does not accept. -/
def unexpectedKw (fn k : String) : String :=
  fn ++ "() got an unexpected keyword argument " ++ keyErr k

/-- `str(TypeError(...))` when both required keywords of a two-argument
function are missing from a `fn(**args)` call. -/
def missingArgs2 (fn k1 k2 : String) : String :=
  fn ++ "() missing 2 required positional arguments: " ++ keyErr k1
    ++ " and " ++ keyErr k2

/-- `str(AttributeError(...))` when `goto` is called on a `None` page. -/
def noneGoto : String := "\x27NoneType\x27 object has no attribute \x27goto\x27"

/-- The keys present in an `args` mapping. CPython names surplus keywords
in the kwargs dict's insertion order; since `Args` abstracts the JSON
dict, that order is abstracted to this fixed field order. -/
def Args.keys (a : Args) : List String :=
  (if a.headless.isSome then ["headless"] else []) ++
  (if a.url.isSome then ["url"] else []) ++
  (if a.path.isSome then ["path"] else []) ++
  (if a.full_page.isSome then ["full_page"] else []) ++
  (if a.selector.isSome then ["selector"] else []) ++
  (if a.text.isSome then ["text"] else []) ++
  (if a.script.isSome then ["script"] else []) ++
  (if a.timeout.isSome then ["timeout"] else [])

/-- The first key of `args` that a tool signature does not accept, if any:
the keyword CPython's `fn(**args)` names in the unexpected-keyword
`TypeError` it raises before binding any parameter. -/
def Args.surplus (a : Args) (accepted : List String) : Option String :=
  (a.keys.filter (fun k => !accepted.contains k)).head?

/-- Oracle for every external call the scripts make. Each `Except`-valued
field is one awaited driver/OS call: `Except.error e` means that call
raises an exception whose `str` is `e`. -/
structure Env where
  pwStart : Except String Nat
  launch : Except String Nat
  newPage : Except String Nat
  goto : String → Except String Unit
  pageUrl : String
  pageTitle : Except String String
  shot : String → Bool → Except String Unit
  shotBytes : Bool → Except String String
  doClick : String → Except String Unit
  doFill : String → String → Except String Unit
  textContent : String → Except String (Option String)
  waitSel : String → Nat → Except String Unit
  evalScript : String → Except String String
  browserClose : Except String Unit
  pwStop : Except String Unit
  absPath : String → String
  defaultShotName : String
  deriving Inhabited

/-- Result of running one handler body: a normal return value, or an
exception that escaped the body (to be caught by the dispatcher). -/
inductive HResult where
  | ok (r : Response)
  | exn (msg : String)
  deriving Repr, DecidableEq

/-- Status observed by the dispatcher after wrapping a handler result in
`try/except`: an escaped exception becomes an `error` response. -/
def HResult.status : HResult → String
  | .ok r => r.status
  | .exn _ => "error"

namespace Server

/-- The mutable fields of `BrowserServer` that the Session operations
touch: `self.pw`, `self.browser`, `self.page` (each `None` or a live
handle). -/
structure BrowserState where
  pw : Option Nat := none
  browser : Option Nat := none
  page : Option Nat := none
  deriving Repr, DecidableEq

/-- The state of a freshly constructed `BrowserServer()`. -/
def initState : BrowserState := {}

/-- `BrowserServer.start_browser`: if a browser handle exists, return
`already_running` and change nothing; otherwise start playwright, launch
the browser and open one page, assigning each handle as the corresponding
await completes (so a failure mid-way leaves the earlier handles set). -/
def start_browser (env : Env) (s : BrowserState) (_headless : Bool) :
    HResult × BrowserState :=
  if s.browser.isSome then (.ok { status := "already_running" }, s)
  else
    match env.pwStart with
    | .error e => (.exn e, s)
    | .ok pwh =>
      let s1 : BrowserState := { s with pw := some pwh }
      match env.launch with
      | .error e => (.exn e, s1)
      | .ok bh =>
        let s2 : BrowserState := { s1 with browser := some bh }
        match env.newPage with
        | .error e => (.exn e, s2)
        | .ok ph =>
          (.ok { status := "success", message := some "Browser launched" },
           { s2 with page := some ph })

/-- `BrowserServer.close_browser`: close the browser and stop playwright
when present, clearing the handles; always returns `success`. -/
def close_browser (env : Env) (s : BrowserState) : HResult × BrowserState :=
  let step1 : Option String × BrowserState :=
    if s.browser.isSome then
      match env.browserClose with
      | .error e => (some e, s)
      | .ok _ => (none, { s with browser := none, page := none })
    else (none, s)
  match step1 with
  | (some e, s1) => (.exn e, s1)
  | (none, s1) =>
    if s1.pw.isSome then
      match env.pwStop with
      | .error e => (.exn e, s1)
      | .ok _ => (.ok { status := "success" }, { s1 with pw := none })
    else (.ok { status := "success" }, s1)

/-- `BrowserServer.navigate`: lazily start the browser when no page is
open, then `goto` the URL and report the resulting URL and title. -/
def navigate (env : Env) (s : BrowserState) (url : String) :
    HResult × BrowserState :=
  let pre : Option String × BrowserState :=
    if s.page.isNone then
      match start_browser env s false with
      | (.exn e, s1) => (some e, s1)
      | (.ok _, s1) => (none, s1)
    else (none, s)
  match pre with
  | (some e, s1) => (.exn e, s1)
  | (none, s1) =>
    match s1.page, env.goto url, env.pageTitle with
    | none, _, _ => (.exn noneGoto, s1)
    | some _, .error e, _ => (.exn e, s1)
    | some _, .ok _, .error e => (.exn e, s1)
    | some _, .ok _, .ok t =>
      (.ok { status := "success", url := some env.pageUrl, title := some t }, s1)

/-- `BrowserServer.screenshot`: error when no page is open; otherwise save
a screenshot at the absolutized path. -/
def screenshot (env : Env) (s : BrowserState) (path : String) (full_page : Bool) :
    HResult × BrowserState :=
  if s.page.isNone then
    (.ok { status := "error", message := some "No page open" }, s)
  else
    let p := env.absPath path
    match env.shot p full_page with
    | .error e => (.exn e, s)
    | .ok _ => (.ok { status := "success", path := some p }, s)

/-- `BrowserServer.click`: error when no page is open; otherwise click the
selector. -/
def click (env : Env) (s : BrowserState) (selector : String) :
    HResult × BrowserState :=
  if s.page.isNone then
    (.ok { status := "error", message := some "No page open" }, s)
  else
    match env.doClick selector with
    | .error e => (.exn e, s)
    | .ok _ => (.ok { status := "success" }, s)

/-- `BrowserServer.type_text`: error when no page is open; otherwise fill
the selector with the text. -/
def type_text (env : Env) (s : BrowserState) (selector : String) (text : String) :
    HResult × BrowserState :=
  if s.page.isNone then
    (.ok { status := "error", message := some "No page open" }, s)
  else
    match env.doFill selector text with
    | .error e => (.exn e, s)
    | .ok _ => (.ok { status := "success" }, s)

/-- `BrowserServer.get_text`: error when no page is open; otherwise return
the text content of the selector. -/
def get_text (env : Env) (s : BrowserState) (selector : String) :
    HResult × BrowserState :=
  if s.page.isNone then
    (.ok { status := "error", message := some "No page open" }, s)
  else
    match env.textContent selector with
    | .error e => (.exn e, s)
    | .ok t => (.ok { status := "success", text := some t }, s)

/-- `BrowserServer.get_url`: error when no page is open; otherwise return
the current URL. -/
def get_url (env : Env) (s : BrowserState) : HResult × BrowserState :=
  if s.page.isNone then
    (.ok { status := "error", message := some "No page open" }, s)
  else (.ok { status := "success", url := some env.pageUrl }, s)

/-- `BrowserServer.get_title`: error when no page is open; otherwise return
the page title. -/
def get_title (env : Env) (s : BrowserState) : HResult × BrowserState :=
  if s.page.isNone then
    (.ok { status := "error", message := some "No page open" }, s)
  else
    match env.pageTitle with
    | .error e => (.exn e, s)
    | .ok t => (.ok { status := "success", title := some t }, s)

/-- `BrowserServer.evaluate`: error when no page is open; otherwise run the
script in the page and return its result. -/
def evaluate (env : Env) (s : BrowserState) (script : String) :
    HResult × BrowserState :=
  if s.page.isNone then
    (.ok { status := "error", message := some "No page open" }, s)
  else
    match env.evalScript script with
    | .error e => (.exn e, s)
    | .ok r => (.ok { status := "success", result := some r }, s)

/-- The `try/except` around `handlers[tool]()` in `handle_call`: an escaped
exception becomes `\x7b"status": "error", "message": str(e)\x7d`. -/
def wrap : HResult × BrowserState → Response × BrowserState
  | (.ok r, s) => (r, s)
  | (.exn e, s) => ({ status := "error", message := some e }, s)

/-- The names registered in `handle_call`'s `handlers` dictionary. -/
def registry : List String :=
  ["launch", "close", "navigate", "screenshot", "click", "type",
   "get_text", "get_url", "get_title", "evaluate"]

/-- The dispatch chain of `BrowserServer.handle_call` on the rendered tool
name `name`: unknown names get an `Unknown tool:` error with no handler
invoked; otherwise the handler runs inside `try/except`, with a missing
required `args` key raising `KeyError` inside that same `try`. -/
def handle_call_named (env : Env) (s : BrowserState) (name : String) (args : Args) :
    Response × BrowserState :=
  if name = "launch" then
    wrap (start_browser env s (args.headless.getD false))
  else if name = "close" then
    wrap (close_browser env s)
  else if name = "navigate" then
    match args.url with
    | none => ({ status := "error", message := some (keyErr "url") }, s)
    | some u => wrap (navigate env s u)
  else if name = "screenshot" then
    wrap (screenshot env s (args.path.getD "screenshot.png") (args.full_page.getD false))
  else if name = "click" then
    match args.selector with
    | none => ({ status := "error", message := some (keyErr "selector") }, s)
    | some sel => wrap (click env s sel)
  else if name = "type" then
    match args.selector with
    | none => ({ status := "error", message := some (keyErr "selector") }, s)
    | some sel =>
      match args.text with
      | none => ({ status := "error", message := some (keyErr "text") }, s)
      | some t => wrap (type_text env s sel t)
  else if name = "get_text" then
    match args.selector with
    | none => ({ status := "error", message := some (keyErr "selector") }, s)
    | some sel => wrap (get_text env s sel)
  else if name = "get_url" then
    wrap (get_url env s)
  else if name = "get_title" then
    wrap (get_title env s)
  else if name = "evaluate" then
    match args.script with
    | none => ({ status := "error", message := some (keyErr "script") }, s)
    | some sc => wrap (evaluate env s sc)
  else
    ({ status := "error", message := some ("Unknown tool: " ++ name) }, s)

/-- `BrowserServer.handle_call`: dispatch `data.get("tool")` (rendered as
Python renders a possibly-`None` value) through the handler registry. -/
def handle_call (env : Env) (s : BrowserState) (tool : Option String) (args : Args) :
    Response × BrowserState :=
  handle_call_named env s (pyStr tool) args

/-- The full server state seen by the accept loop: the Session fields plus
`self.running`. -/
structure ServerState where
  sess : BrowserState
  running : Bool
  deriving Repr, DecidableEq

/-- One accepted connection's payload after `json.loads`: either the decode
raised (malformed JSON), or a request dictionary with its optional `cmd`
and `tool` keys and its `args`. -/
inductive Incoming where
  | malformed (msg : String)
  | req (cmd : Option String) (tool : Option String) (args : Args)
  deriving Repr, DecidableEq

/-- `BrowserServer.handle_client`: read one request; `cmd: stop` clears
`self.running`, `cmd: status` reports the handle flags, anything else is
dispatched through `handle_call`; a decode failure is answered with an
error response. Returns the response written back and the new state. -/
def handle_client (env : Env) (st : ServerState) :
    Incoming → Response × ServerState
  | .malformed e => ({ status := "error", message := some e }, st)
  | .req cmd tool args =>
    if cmd = some "stop" then
      ({ status := "success", message := some "Server stopping" },
       { st with running := false })
    else if cmd = some "status" then
      ({ status := "success", browser := some st.sess.browser.isSome,
         page := some st.sess.page.isSome }, st)
    else
      let (r, s1) := handle_call env st.sess tool args
      (r, { st with sess := s1 })

/-- The on-disk / OS facts `run_server` and `main` manipulate: the pid
file's content (`none` when absent) and whether the listening socket is
open. -/
structure World where
  pidFile : Option Nat
  sockOpen : Bool
  deriving Repr, DecidableEq

/-- The accept phase of `run_server`: connections are served sequentially;
each is handled while `self.running` holds, and once a `stop` request has
cleared it the loop stops serving. Returns the final state and the
responses written. -/
def serve (env : Env) : ServerState → List Incoming → ServerState × List Response
  | st, [] => (st, [])
  | st, c :: cs =>
    if st.running then
      let (r, st1) := handle_client env st c
      let (stF, rs) := serve env st1 cs
      (stF, r :: rs)
    else (st, [])

/-- The shutdown tail of `run_server`, reached when the accept loop
observes `self.running = False`: close the listening socket, close the
browser, and unlink the pid file. A teardown exception propagates out of
`run_server` (pid file then not removed). -/
def server_shutdown (env : Env) (sess : BrowserState) (w : World) :
    Except String (BrowserState × World) :=
  let w1 : World := { w with sockOpen := false }
  match close_browser env sess with
  | (.exn e, _) => .error e
  | (.ok _, sess1) => .ok (sess1, { w1 with pidFile := none })

/-- `run_server` as a whole, over the finite trace of connections the
server receives before its loop next checks `self.running`: bind the
socket, write the pid file, serve, and when `running` has been cleared run
the shutdown tail. `none` means the loop is still running (no `stop`
processed yet). -/
def run_server (env : Env) (pid : Nat) (w : World) (cs : List Incoming) :
    List Response × Option (Except String (BrowserState × World)) :=
  let w1 : World := { w with sockOpen := true, pidFile := some pid }
  let (stF, rs) := serve env { sess := initState, running := true } cs
  if stF.running then (rs, none)
  else (rs, some (server_shutdown env stF.sess w1))

/-- What `main` does for the `start` command, before any server runs:
consult the pid file and the OS liveness of the recorded pid. -/
inductive StartDecision where
  | alreadyRunning (pid : Nat)
  | startServer
  deriving Repr, DecidableEq

/-- The pid-file check at the top of `main`'s `start` branch: an existing
pid file whose pid is alive prints already-running and exits 0 (no server
constructed); a stale pid file is unlinked and startup proceeds; no pid
file means startup proceeds. Returns the decision, the exit code taken at
this point (`none` when execution continues into `run_server`), and the
pid file content after the check. -/
def main_start (pidFile : Option Nat) (alive : Nat → Bool) :
    StartDecision × Option Nat × Option Nat :=
  match pidFile with
  | some pid =>
    if alive pid then (.alreadyRunning pid, some 0, some pid)
    else (.startServer, none, none)
  | none => (.startServer, none, none)

end Server

/-- The possible outcomes of the client's socket exchange in
`send_command`: the connect raised `ConnectionRefusedError`; some other
call in the `try` block raised; or bytes came back and `json.loads` on
them either raised or produced a response dictionary. -/
inductive Wire where
  | refused
  | exn (msg : String)
  | recv (parsed : Except String Response)
  deriving Repr

/-- `send_command`: one connection attempt; a refused connection yields the
synthetic start-the-server error, any other exception (transport or JSON
parse) yields an error response with that exception's text, and a parsed
reply is returned as-is. Total: nothing escapes the function. -/
def send_command : Wire → Response
  | .refused =>
    { status := "error",
      message := some "Server not running. Start with: python server.py start" }
  | .exn e => { status := "error", message := some e }
  | .recv (.error e) => { status := "error", message := some e }
  | .recv (.ok r) => r

namespace Executor

/-- The module globals of `executor.py`: `_browser` and `_page` (the
playwright handle is a local of `launch_browser` and is not stored). -/
structure ExecState where
  browser : Option Nat := none
  page : Option Nat := none
  deriving Repr, DecidableEq

/-- The initial module state: `_browser = None`, `_page = None`. -/
def initState : ExecState := {}

/-- `launch_browser`: `already_running` when `_browser` is set; otherwise
start playwright, launch, and open one page, assigning `_browser` and
`_page` as each await completes. -/
def launch_browser (env : Env) (s : ExecState) (_headless : Bool) :
    HResult × ExecState :=
  if s.browser.isSome then
    (.ok { status := "already_running", message := some "Browser already launched" }, s)
  else
    match env.pwStart with
    | .error e => (.exn e, s)
    | .ok _ =>
      match env.launch with
      | .error e => (.exn e, s)
      | .ok bh =>
        let s1 : ExecState := { s with browser := some bh }
        match env.newPage with
        | .error e => (.exn e, s1)
        | .ok ph =>
          (.ok { status := "success", message := some "Browser launched" },
           { s1 with page := some ph })

/-- `close_browser`: close and clear both globals when a browser is set;
otherwise report `not_running`. -/
def close_browser (env : Env) (s : ExecState) : HResult × ExecState :=
  if s.browser.isSome then
    match env.browserClose with
    | .error e => (.exn e, s)
    | .ok _ =>
      (.ok { status := "success", message := some "Browser closed" },
       { browser := none, page := none })
  else (.ok { status := "not_running", message := some "No browser to close" }, s)

/-- `navigate`: lazily launch when `_page` is unset, then `goto` and report
URL and title. -/
def navigate (env : Env) (s : ExecState) (url : String) : HResult × ExecState :=
  let pre : Option String × ExecState :=
    if s.page.isNone then
      match launch_browser env s false with
      | (.exn e, s1) => (some e, s1)
      | (.ok _, s1) => (none, s1)
    else (none, s)
  match pre with
  | (some e, s1) => (.exn e, s1)
  | (none, s1) =>
    match s1.page, env.goto url, env.pageTitle with
    | none, _, _ => (.exn noneGoto, s1)
    | some _, .error e, _ => (.exn e, s1)
    | some _, .ok _, .error e => (.exn e, s1)
    | some _, .ok _, .ok t =>
      (.ok { status := "success", url := some env.pageUrl, title := some t }, s1)

/-- `screenshot`: error when no page; a missing or empty path falls back to
a timestamped default name; saves the file and reports its absolute
path. -/
def screenshot (env : Env) (s : ExecState) (path : Option String) (full_page : Bool) :
    HResult × ExecState :=
  if s.page.isNone then
    (.ok { status := "error", message := some "No page open. Navigate first." }, s)
  else
    let p := match path with
      | some q => if q = "" then env.defaultShotName else q
      | none => env.defaultShotName
    match env.shot p full_page with
    | .error e => (.exn e, s)
    | .ok _ =>
      (.ok { status := "success", path := some (env.absPath p),
             url := some env.pageUrl }, s)

/-- `screenshot_base64`: error when no page; otherwise capture bytes and
return them base64-encoded. -/
def screenshot_base64 (env : Env) (s : ExecState) (full_page : Bool) :
    HResult × ExecState :=
  if s.page.isNone then
    (.ok { status := "error", message := some "No page open. Navigate first." }, s)
  else
    match env.shotBytes full_page with
    | .error e => (.exn e, s)
    | .ok b =>
      (.ok { status := "success", base64 := some b, url := some env.pageUrl }, s)

/-- `click`: error when no page; otherwise click and echo the selector. -/
def click (env : Env) (s : ExecState) (selector : String) : HResult × ExecState :=
  if s.page.isNone then
    (.ok { status := "error", message := some "No page open" }, s)
  else
    match env.doClick selector with
    | .error e => (.exn e, s)
    | .ok _ => (.ok { status := "success", selector := some selector }, s)

/-- `type_text`: error when no page; otherwise fill and echo the
selector. -/
def type_text (env : Env) (s : ExecState) (selector : String) (text : String) :
    HResult × ExecState :=
  if s.page.isNone then
    (.ok { status := "error", message := some "No page open" }, s)
  else
    match env.doFill selector text with
    | .error e => (.exn e, s)
    | .ok _ => (.ok { status := "success", selector := some selector }, s)

/-- `get_text`: error when no page; otherwise return the element's text
content. -/
def get_text (env : Env) (s : ExecState) (selector : String) : HResult × ExecState :=
  if s.page.isNone then
    (.ok { status := "error", message := some "No page open" }, s)
  else
    match env.textContent selector with
    | .error e => (.exn e, s)
    | .ok t => (.ok { status := "success", text := some t }, s)

/-- `wait_for`: error when no page; otherwise wait for the selector. -/
def wait_for (env : Env) (s : ExecState) (selector : String) (timeout : Nat) :
    HResult × ExecState :=
  if s.page.isNone then
    (.ok { status := "error", message := some "No page open" }, s)
  else
    match env.waitSel selector timeout with
    | .error e => (.exn e, s)
    | .ok _ => (.ok { status := "success", selector := some selector }, s)

/-- `get_url`: error when no page; otherwise the current URL. -/
def get_url (env : Env) (s : ExecState) : HResult × ExecState :=
  if s.page.isNone then
    (.ok { status := "error", message := some "No page open" }, s)
  else (.ok { status := "success", url := some env.pageUrl }, s)

/-- `get_title`: error when no page; otherwise the page title. -/
def get_title (env : Env) (s : ExecState) : HResult × ExecState :=
  if s.page.isNone then
    (.ok { status := "error", message := some "No page open" }, s)
  else
    match env.pageTitle with
    | .error e => (.exn e, s)
    | .ok t => (.ok { status := "success", title := some t }, s)

/-- The `try/except` around `fn(**args)` in `call_tool`. -/
def wrap : HResult × ExecState → Response × ExecState
  | (.ok r, s) => (r, s)
  | (.exn e, s) => ({ status := "error", message := some e }, s)

/-- The keys of the `TOOLS` registry dictionary. -/
def registry : List String :=
  ["launch", "close", "navigate", "screenshot", "screenshot_base64", "click",
   "type", "get_text", "wait_for", "get_url", "get_title"]

/-- The dispatch chain of `call_tool` on the rendered tool name: unknown
names get an `Unknown tool:` error without invoking a handler; otherwise
`fn(**args)` runs inside `try/except`. CPython's keyword binding raises
`TypeError` inside that `try` for a keyword the signature does not accept
(checked before any parameter is bound, so before the handler's no-page
check can run), and then for missing required keywords — naming both when
both of `type_text`'s are absent. -/
def call_tool_named (env : Env) (s : ExecState) (name : String) (args : Args) :
    Response × ExecState :=
  if name = "launch" then
    match args.surplus ["headless"] with
    | some k => ({ status := "error", message := some (unexpectedKw "launch_browser" k) }, s)
    | none => wrap (launch_browser env s (args.headless.getD false))
  else if name = "close" then
    match args.surplus [] with
    | some k => ({ status := "error", message := some (unexpectedKw "close_browser" k) }, s)
    | none => wrap (close_browser env s)
  else if name = "navigate" then
    match args.surplus ["url"] with
    | some k => ({ status := "error", message := some (unexpectedKw "navigate" k) }, s)
    | none =>
      match args.url with
      | none => ({ status := "error", message := some (missingArg "navigate" "url") }, s)
      | some u => wrap (navigate env s u)
  else if name = "screenshot" then
    match args.surplus ["path", "full_page"] with
    | some k => ({ status := "error", message := some (unexpectedKw "screenshot" k) }, s)
    | none => wrap (screenshot env s args.path (args.full_page.getD false))
  else if name = "screenshot_base64" then
    match args.surplus ["full_page"] with
    | some k => ({ status := "error", message := some (unexpectedKw "screenshot_base64" k) }, s)
    | none => wrap (screenshot_base64 env s (args.full_page.getD false))
  else if name = "click" then
    match args.surplus ["selector"] with
    | some k => ({ status := "error", message := some (unexpectedKw "click" k) }, s)
    | none =>
      match args.selector with
      | none => ({ status := "error", message := some (missingArg "click" "selector") }, s)
      | some sel => wrap (click env s sel)
  else if name = "type" then
    match args.surplus ["selector", "text"] with
    | some k => ({ status := "error", message := some (unexpectedKw "type_text" k) }, s)
    | none =>
      match args.selector, args.text with
      | none, none =>
        ({ status := "error",
           message := some (missingArgs2 "type_text" "selector" "text") }, s)
      | none, some _ =>
        ({ status := "error", message := some (missingArg "type_text" "selector") }, s)
      | some _, none =>
        ({ status := "error", message := some (missingArg "type_text" "text") }, s)
      | some sel, some t => wrap (type_text env s sel t)
  else if name = "get_text" then
    match args.surplus ["selector"] with
    | some k => ({ status := "error", message := some (unexpectedKw "get_text" k) }, s)
    | none =>
      match args.selector with
      | none => ({ status := "error", message := some (missingArg "get_text" "selector") }, s)
      | some sel => wrap (get_text env s sel)
  else if name = "wait_for" then
    match args.surplus ["selector", "timeout"] with
    | some k => ({ status := "error", message := some (unexpectedKw "wait_for" k) }, s)
    | none =>
      match args.selector with
      | none => ({ status := "error", message := some (missingArg "wait_for" "selector") }, s)
      | some sel => wrap (wait_for env s sel (args.timeout.getD 10000))
  else if name = "get_url" then
    match args.surplus [] with
    | some k => ({ status := "error", message := some (unexpectedKw "get_url" k) }, s)
    | none => wrap (get_url env s)
  else if name = "get_title" then
    match args.surplus [] with
    | some k => ({ status := "error", message := some (unexpectedKw "get_title" k) }, s)
    | none => wrap (get_title env s)
  else
    ({ status := "error", message := some ("Unknown tool: " ++ name) }, s)

/-- `call_tool`: dispatch `call_data.get("tool")` (rendered as Python
renders a possibly-`None` value) through the `TOOLS` registry. -/
def call_tool (env : Env) (s : ExecState) (tool_name : Option String) (args : Args) :
    Response × ExecState :=
  call_tool_named env s (pyStr tool_name) args

end Executor

namespace Batch

/-- One element of the list `crawler.arun_many` returns in
`batch_crawler.py`: the external crawling library's per-URL result, with
the fields `crawl_batch` reads. -/
structure CrawlResult where
  url : String
  success : Bool
  error_message : String
  title : String
  description : String
  markdown : String
  internal_links : Nat
  external_links : Nat
  images : Nat
  deriving Repr, DecidableEq

/-- A `results` entry built for a successful crawl. -/
structure ResultEntry where
  url : String
  title : String
  description : String
  content_length : Nat
  links_count : Nat
  images_count : Nat
  deriving Repr, DecidableEq

/-- A `failed` entry built for an unsuccessful crawl. -/
structure FailedEntry where
  url : String
  error : String
  deriving Repr, DecidableEq

/-- The entry appended to `results` for a successful crawl result. -/
def mkEntry (r : CrawlResult) : ResultEntry :=
  { url := r.url, title := r.title, description := r.description,
    content_length := r.markdown.length,
    links_count := r.internal_links + r.external_links,
    images_count := r.images }

/-- The `for result in batch_results` loop of `crawl_batch`: each result is
appended to `results` when successful, else to `failed`, preserving the
order `arun_many` returned. -/
def batchLoop : List CrawlResult → List ResultEntry × List FailedEntry
  | [] => ([], [])
  | r :: rs =>
    let (res, fl) := batchLoop rs
    if r.success then (mkEntry r :: res, fl)
    else (res, { url := r.url, error := r.error_message } :: fl)

/-- The `output` dictionary `crawl_batch` writes to `batch_results.json`. -/
structure BatchOutput where
  success_count : Nat
  failed_count : Nat
  results : List ResultEntry
  failed : List FailedEntry
  deriving Repr, DecidableEq

/-- `crawl_batch`'s result shaping, as a function of the list the external
`arun_many` call returned: partition into success and failed lists and
record the counts. Total: no crawl failure raises here. -/
def crawl_batch (batch_results : List CrawlResult) : BatchOutput :=
  let (results, failed) := batchLoop batch_results
  { success_count := results.length, failed_count := failed.length,
    results := results, failed := failed }

end Batch

/-! ### Concrete fixtures for evaluation -/

/-- A fully succeeding oracle: every external call completes normally. -/
def envOK : Env :=
  { pwStart := .ok 1, launch := .ok 2, newPage := .ok 3,
    goto := fun _ => .ok (), pageUrl := "https://example.com/",
    pageTitle := .ok "Example Domain",
    shot := fun _ _ => .ok (), shotBytes := fun _ => .ok "AAAA",
    doClick := fun _ => .ok (), doFill := fun _ _ => .ok (),
    textContent := fun _ => .ok (some "text"),
    waitSel := fun _ _ => .ok (), evalScript := fun _ => .ok "42",
    browserClose := .ok (), pwStop := .ok (),
    absPath := fun p => "/abs/" ++ p, defaultShotName := "screenshot_0.png" }

/-- A server Session with a running browser and an open page. -/
def runningState : Server.BrowserState :=
  { pw := some 1, browser := some 2, page := some 3 }

/-- An executor module state with a running browser and an open page. -/
def runningExec : Executor.ExecState := { browser := some 2, page := some 3 }

/-- The Session handle invariant for the server: a page handle exists only
when a browser handle exists. -/
def Server.inv (s : Server.BrowserState) : Prop :=
  s.page.isSome → s.browser.isSome

/-- The handle invariant for the executor's module globals. -/
def Executor.inv (s : Executor.ExecState) : Prop :=
  s.page.isSome → s.browser.isSome

/-- The page-scoped operations of the server registry other than
`navigate`. -/
def Server.pageScoped : List String :=
  ["screenshot", "click", "type", "get_text", "get_url", "get_title", "evaluate"]

/-- The page-scoped operations of the executor registry other than
`navigate`. -/
def Executor.pageScoped : List String :=
  ["screenshot", "screenshot_base64", "click", "type", "get_text", "wait_for",
   "get_url", "get_title"]

/-- A successful crawl result as the external library would return it. -/
def crawlOK : Batch.CrawlResult :=
  { url := "https://example.com", success := true, error_message := "",
    title := "Example", description := "d", markdown := "# Example",
    internal_links := 1, external_links := 2, images := 3 }

/-- A failed crawl result (e.g. an unreachable URL). -/
def crawlFail : Batch.CrawlResult :=
  { url := "https://unreachable.invalid", success := false,
    error_message := "net::ERR_NAME_NOT_RESOLVED", title := "",
    description := "", markdown := "", internal_links := 0,
    external_links := 0, images := 0 }

/-! ### Helper lemmas -/

namespace Server

lemma wrap_fst_status (p : HResult × BrowserState) :
    (wrap p).1.status = p.1.status := by
  obtain ⟨r, s⟩ := p
  cases r <;> rfl

lemma wrap_snd (p : HResult × BrowserState) : (wrap p).2 = p.2 := by
  obtain ⟨r, s⟩ := p
  cases r <;> rfl

lemma start_browser_status (env : Env) (s : BrowserState) (h : Bool) :
    (start_browser env s h).1.status ∈ statusTags := by
  unfold start_browser
  repeat' split
  all_goals simp [HResult.status, statusTags]

lemma close_browser_status (env : Env) (s : BrowserState) :
    (close_browser env s).1.status ∈ statusTags := by
  unfold close_browser
  rcases hbc : env.browserClose with e | u <;>
    rcases hps : env.pwStop with e2 | u2 <;>
    by_cases hb : s.browser.isSome <;>
    by_cases hp : s.pw.isSome <;>
    simp [hbc, hps, hb, hp, HResult.status, statusTags]

lemma navigate_status (env : Env) (s : BrowserState) (u : String) :
    (navigate env s u).1.status ∈ statusTags := by
  simp only [navigate]
  split
  · simp [HResult.status, statusTags]
  · rename_i s1 hpre
    rcases h1 : s1.page with _ | p <;>
      rcases h2 : env.goto u with e | a <;>
      rcases h3 : env.pageTitle with e2 | t <;>
      simp [h1, h2, h3, HResult.status, statusTags]

lemma screenshot_status (env : Env) (s : BrowserState) (p : String) (fp : Bool) :
    (screenshot env s p fp).1.status ∈ statusTags := by
  unfold screenshot
  by_cases hp : s.page.isNone <;>
    rcases h : env.shot (env.absPath p) fp with e | a <;>
    simp [hp, h, HResult.status, statusTags]

lemma click_status (env : Env) (s : BrowserState) (sel : String) :
    (click env s sel).1.status ∈ statusTags := by
  unfold click
  by_cases hp : s.page.isNone <;>
    rcases h : env.doClick sel with e | a <;>
    simp [hp, h, HResult.status, statusTags]

lemma type_text_status (env : Env) (s : BrowserState) (sel t : String) :
    (type_text env s sel t).1.status ∈ statusTags := by
  unfold type_text
  by_cases hp : s.page.isNone <;>
    rcases h : env.doFill sel t with e | a <;>
    simp [hp, h, HResult.status, statusTags]

lemma get_text_status (env : Env) (s : BrowserState) (sel : String) :
    (get_text env s sel).1.status ∈ statusTags := by
  unfold get_text
  by_cases hp : s.page.isNone <;>
    rcases h : env.textContent sel with e | a <;>
    simp [hp, h, HResult.status, statusTags]

lemma get_url_status (env : Env) (s : BrowserState) :
    (get_url env s).1.status ∈ statusTags := by
  unfold get_url
  by_cases hp : s.page.isNone <;> simp [hp, HResult.status, statusTags]

lemma get_title_status (env : Env) (s : BrowserState) :
    (get_title env s).1.status ∈ statusTags := by
  unfold get_title
  by_cases hp : s.page.isNone <;>
    rcases h : env.pageTitle with e | t <;>
    simp [hp, h, HResult.status, statusTags]

lemma evaluate_status (env : Env) (s : BrowserState) (sc : String) :
    (evaluate env s sc).1.status ∈ statusTags := by
  unfold evaluate
  by_cases hp : s.page.isNone <;>
    rcases h : env.evalScript sc with e | r <;>
    simp [hp, h, HResult.status, statusTags]

lemma handle_call_named_status (env : Env) (s : BrowserState) (name : String)
    (args : Args) : (handle_call_named env s name args).1.status ∈ statusTags := by
  unfold handle_call_named
  repeat' split
  all_goals
    first
      | (rw [wrap_fst_status]
         first
           | exact start_browser_status ..
           | exact close_browser_status ..
           | exact navigate_status ..
           | exact screenshot_status ..
           | exact click_status ..
           | exact type_text_status ..
           | exact get_text_status ..
           | exact get_url_status ..
           | exact get_title_status ..
           | exact evaluate_status ..)
      | simp [statusTags]

lemma handle_call_status (env : Env) (s : BrowserState) (tool : Option String)
    (args : Args) : (handle_call env s tool args).1.status ∈ statusTags := by
  unfold handle_call
  exact handle_call_named_status env s (pyStr tool) args

lemma screenshot_snd (env : Env) (s : BrowserState) (p : String) (fp : Bool) :
    (screenshot env s p fp).2 = s := by
  unfold screenshot
  by_cases hp : s.page.isNone <;>
    rcases h : env.shot (env.absPath p) fp with e | a <;>
    simp [hp, h]

lemma click_snd (env : Env) (s : BrowserState) (sel : String) :
    (click env s sel).2 = s := by
  unfold click
  by_cases hp : s.page.isNone <;>
    rcases h : env.doClick sel with e | a <;>
    simp [hp, h]

lemma type_text_snd (env : Env) (s : BrowserState) (sel t : String) :
    (type_text env s sel t).2 = s := by
  unfold type_text
  by_cases hp : s.page.isNone <;>
    rcases h : env.doFill sel t with e | a <;>
    simp [hp, h]

lemma get_text_snd (env : Env) (s : BrowserState) (sel : String) :
    (get_text env s sel).2 = s := by
  unfold get_text
  by_cases hp : s.page.isNone <;>
    rcases h : env.textContent sel with e | a <;>
    simp [hp, h]

lemma get_url_snd (env : Env) (s : BrowserState) : (get_url env s).2 = s := by
  unfold get_url
  by_cases hp : s.page.isNone <;> simp [hp]

lemma get_title_snd (env : Env) (s : BrowserState) : (get_title env s).2 = s := by
  unfold get_title
  by_cases hp : s.page.isNone <;>
    rcases h : env.pageTitle with e | t <;>
    simp [hp, h]

lemma evaluate_snd (env : Env) (s : BrowserState) (sc : String) :
    (evaluate env s sc).2 = s := by
  unfold evaluate
  by_cases hp : s.page.isNone <;>
    rcases h : env.evalScript sc with e | r <;>
    simp [hp, h]

lemma start_browser_inv (env : Env) (s : BrowserState) (h : Bool)
    (hinv : inv s) : inv (start_browser env s h).2 := by
  unfold start_browser
  rcases h1 : env.pwStart with e | pwh <;>
    rcases h2 : env.launch with e | bh <;>
    rcases h3 : env.newPage with e | ph <;>
    by_cases hb : s.browser.isSome <;>
    simp_all [inv]

lemma close_browser_inv (env : Env) (s : BrowserState) (hinv : inv s) :
    inv (close_browser env s).2 := by
  unfold close_browser
  rcases h1 : env.browserClose with e | u <;>
    rcases h2 : env.pwStop with e2 | u2 <;>
    by_cases hb : s.browser.isSome <;>
    by_cases hp : s.pw.isSome <;>
    simp_all [inv]

lemma navigate_snd (env : Env) (s : BrowserState) (u : String) :
    (navigate env s u).2 =
      if s.page.isNone then (start_browser env s false).2 else s := by
  simp only [navigate]
  by_cases hp : s.page.isNone
  · rcases hsb : start_browser env s false with ⟨hr, s1⟩
    cases hr
    · simp only [hp, if_true, hsb]
      rcases h1 : s1.page with _ | p <;>
        rcases h2 : env.goto u with e | a <;>
        rcases h3 : env.pageTitle with e2 | t <;>
        simp [h1, h2, h3]
    · simp [hp, hsb]
  · simp only [hp, if_false, Bool.false_eq_true]
    rcases h1 : s.page with _ | p <;>
      rcases h2 : env.goto u with e | a <;>
      rcases h3 : env.pageTitle with e2 | t <;>
      simp [hp, h1, h2, h3]

lemma navigate_inv (env : Env) (s : BrowserState) (u : String) (hinv : inv s) :
    inv (navigate env s u).2 := by
  rw [navigate_snd]
  by_cases hp : s.page.isNone
  · rw [if_pos hp]
    exact start_browser_inv env s false hinv
  · rw [if_neg hp]
    exact hinv

lemma handle_call_named_inv (env : Env) (s : BrowserState) (name : String)
    (args : Args) (hinv : inv s) : inv (handle_call_named env s name args).2 := by
  unfold handle_call_named
  repeat' split
  all_goals
    first
      | exact hinv
      | (rw [wrap_snd, screenshot_snd]; exact hinv)
      | (rw [wrap_snd, click_snd]; exact hinv)
      | (rw [wrap_snd, type_text_snd]; exact hinv)
      | (rw [wrap_snd, get_text_snd]; exact hinv)
      | (rw [wrap_snd, get_url_snd]; exact hinv)
      | (rw [wrap_snd, get_title_snd]; exact hinv)
      | (rw [wrap_snd, evaluate_snd]; exact hinv)
      | (rw [wrap_snd]; exact start_browser_inv _ _ _ hinv)
      | (rw [wrap_snd]; exact close_browser_inv _ _ hinv)
      | (rw [wrap_snd]; exact navigate_inv _ _ _ hinv)

lemma handle_call_inv (env : Env) (s : BrowserState) (tool : Option String)
    (args : Args) (hinv : inv s) : inv (handle_call env s tool args).2 := by
  unfold handle_call
  exact handle_call_named_inv env s (pyStr tool) args hinv

lemma handle_client_inv (env : Env) (st : ServerState) (inc : Incoming)
    (hinv : inv st.sess) : inv (handle_client env st inc).2.sess := by
  cases inc with
  | malformed e => exact hinv
  | req cmd tool args =>
    by_cases h1 : cmd = some "stop"
    · simpa [handle_client, h1] using hinv
    by_cases h2 : cmd = some "status"
    · simpa [handle_client, h1, h2] using hinv
    simpa [handle_client, h1, h2] using handle_call_inv env st.sess tool args hinv

lemma serve_inv (env : Env) (st : ServerState) (cs : List Incoming)
    (hinv : inv st.sess) : inv (serve env st cs).1.sess := by
  induction cs generalizing st with
  | nil => simpa [serve] using hinv
  | cons c cs ih =>
    by_cases hr : st.running
    · simpa [serve, hr] using ih (handle_client env st c).2 (handle_client_inv env st c hinv)
    · simpa [serve, hr] using hinv

lemma serve_not_running (env : Env) (st : ServerState) (cs : List Incoming)
    (h : st.running = false) : serve env st cs = (st, []) := by
  cases cs <;> simp [serve, h]

lemma handle_client_running (env : Env) (st : ServerState)
    (cmd tool : Option String) (args : Args) (h : cmd ≠ some "stop") :
    (handle_client env st (.req cmd tool args)).2.running = st.running := by
  by_cases h2 : cmd = some "status" <;> simp [handle_client, h, h2]

lemma close_browser_clears (env : Env) (s : BrowserState) (hinv : inv s)
    (hc : env.browserClose = .ok ()) (hpw : env.pwStop = .ok ()) :
    close_browser env s = (.ok { status := "success" }, initState) := by
  unfold close_browser
  by_cases hb : s.browser.isSome
  · by_cases hp : s.pw.isSome <;> simp [hb, hp, hc, hpw, initState] <;>
      (cases h : s.pw
       · rfl
       · rw [h] at hp; simp at hp)
  · have hpage : s.page = none := by
      cases h : s.page
      · rfl
      · exact absurd (hinv (by rw [h]; rfl)) hb
    have hbn : s.browser = none := by
      cases h : s.browser
      · rfl
      · exact absurd (by rw [h]; rfl) hb
    by_cases hp : s.pw.isSome
    · obtain ⟨pwv, hpv⟩ := Option.isSome_iff_exists.mp hp
      simp [hb, hp, hpw, initState]
      cases s
      simp_all
    · have hpn : s.pw = none := by
        cases h : s.pw
        · rfl
        · exact absurd (by rw [h]; rfl) hp
      simp [hb, hp, initState]
      cases s
      simp_all

end Server

namespace Executor

lemma exec_wrap_fst_status (p : HResult × ExecState) :
    (wrap p).1.status = p.1.status := by
  obtain ⟨r, s⟩ := p
  cases r <;> rfl

lemma exec_wrap_snd (p : HResult × ExecState) : (wrap p).2 = p.2 := by
  obtain ⟨r, s⟩ := p
  cases r <;> rfl

lemma launch_browser_status (env : Env) (s : ExecState) (h : Bool) :
    (launch_browser env s h).1.status ∈ statusTags := by
  unfold launch_browser
  repeat' split
  all_goals simp [HResult.status, statusTags]

lemma exec_close_browser_status (env : Env) (s : ExecState) :
    (close_browser env s).1.status ∈ statusTags := by
  unfold close_browser
  by_cases hb : s.browser.isSome <;>
    rcases h : env.browserClose with e | a <;>
    simp [hb, h, HResult.status, statusTags]

lemma exec_navigate_status (env : Env) (s : ExecState) (u : String) :
    (navigate env s u).1.status ∈ statusTags := by
  simp only [navigate]
  split
  · simp [HResult.status, statusTags]
  · rename_i s1 hpre
    rcases h1 : s1.page with _ | p <;>
      rcases h2 : env.goto u with e | a <;>
      rcases h3 : env.pageTitle with e2 | t <;>
      simp [h1, h2, h3, HResult.status, statusTags]

lemma exec_screenshot_status (env : Env) (s : ExecState) (p : Option String) (fp : Bool) :
    (screenshot env s p fp).1.status ∈ statusTags := by
  simp only [screenshot]
  by_cases hp : s.page.isNone
  · simp [hp, HResult.status, statusTags]
  · rcases h : env.shot (match p with
      | some q => if q = "" then env.defaultShotName else q
      | none => env.defaultShotName) fp with e | a <;>
      simp [hp, h, HResult.status, statusTags]

lemma screenshot_base64_status (env : Env) (s : ExecState) (fp : Bool) :
    (screenshot_base64 env s fp).1.status ∈ statusTags := by
  unfold screenshot_base64
  by_cases hp : s.page.isNone <;>
    rcases h : env.shotBytes fp with e | b <;>
    simp [hp, h, HResult.status, statusTags]

lemma exec_click_status (env : Env) (s : ExecState) (sel : String) :
    (click env s sel).1.status ∈ statusTags := by
  unfold click
  by_cases hp : s.page.isNone <;>
    rcases h : env.doClick sel with e | a <;>
    simp [hp, h, HResult.status, statusTags]

lemma exec_type_text_status (env : Env) (s : ExecState) (sel t : String) :
    (type_text env s sel t).1.status ∈ statusTags := by
  unfold type_text
  by_cases hp : s.page.isNone <;>
    rcases h : env.doFill sel t with e | a <;>
    simp [hp, h, HResult.status, statusTags]

lemma exec_get_text_status (env : Env) (s : ExecState) (sel : String) :
    (get_text env s sel).1.status ∈ statusTags := by
  unfold get_text
  by_cases hp : s.page.isNone <;>
    rcases h : env.textContent sel with e | a <;>
    simp [hp, h, HResult.status, statusTags]

lemma wait_for_status (env : Env) (s : ExecState) (sel : String) (t : Nat) :
    (wait_for env s sel t).1.status ∈ statusTags := by
  unfold wait_for
  by_cases hp : s.page.isNone <;>
    rcases h : env.waitSel sel t with e | a <;>
    simp [hp, h, HResult.status, statusTags]

lemma exec_get_url_status (env : Env) (s : ExecState) :
    (get_url env s).1.status ∈ statusTags := by
  unfold get_url
  by_cases hp : s.page.isNone <;> simp [hp, HResult.status, statusTags]

lemma exec_get_title_status (env : Env) (s : ExecState) :
    (get_title env s).1.status ∈ statusTags := by
  unfold get_title
  by_cases hp : s.page.isNone <;>
    rcases h : env.pageTitle with e | t <;>
    simp [hp, h, HResult.status, statusTags]

lemma call_tool_named_status (env : Env) (s : ExecState) (name : String)
    (args : Args) : (call_tool_named env s name args).1.status ∈ statusTags := by
  unfold call_tool_named
  by_cases h1 : name = "launch"
  · rw [if_pos h1]
    cases hk : args.surplus ["headless"]
    · dsimp only
      rw [exec_wrap_fst_status]; exact launch_browser_status ..
    · simp [statusTags]
  rw [if_neg h1]
  by_cases h2 : name = "close"
  · rw [if_pos h2]
    cases hk : args.surplus []
    · dsimp only
      rw [exec_wrap_fst_status]; exact exec_close_browser_status ..
    · simp [statusTags]
  rw [if_neg h2]
  by_cases h3 : name = "navigate"
  · rw [if_pos h3]
    cases hk : args.surplus ["url"]
    · cases hu : args.url
      · simp [statusTags]
      · dsimp only
        rw [exec_wrap_fst_status]; exact exec_navigate_status ..
    · simp [statusTags]
  rw [if_neg h3]
  by_cases h4 : name = "screenshot"
  · rw [if_pos h4]
    cases hk : args.surplus ["path", "full_page"]
    · dsimp only
      rw [exec_wrap_fst_status]; exact exec_screenshot_status ..
    · simp [statusTags]
  rw [if_neg h4]
  by_cases h5 : name = "screenshot_base64"
  · rw [if_pos h5]
    cases hk : args.surplus ["full_page"]
    · dsimp only
      rw [exec_wrap_fst_status]; exact screenshot_base64_status ..
    · simp [statusTags]
  rw [if_neg h5]
  by_cases h6 : name = "click"
  · rw [if_pos h6]
    cases hk : args.surplus ["selector"]
    · cases hs : args.selector
      · simp [statusTags]
      · dsimp only
        rw [exec_wrap_fst_status]; exact exec_click_status ..
    · simp [statusTags]
  rw [if_neg h6]
  by_cases h7 : name = "type"
  · rw [if_pos h7]
    cases hk : args.surplus ["selector", "text"]
    · cases hs : args.selector <;> cases ht : args.text
      · simp [statusTags]
      · simp [statusTags]
      · simp [statusTags]
      · dsimp only
        rw [exec_wrap_fst_status]; exact exec_type_text_status ..
    · simp [statusTags]
  rw [if_neg h7]
  by_cases h8 : name = "get_text"
  · rw [if_pos h8]
    cases hk : args.surplus ["selector"]
    · cases hs : args.selector
      · simp [statusTags]
      · dsimp only
        rw [exec_wrap_fst_status]; exact exec_get_text_status ..
    · simp [statusTags]
  rw [if_neg h8]
  by_cases h9 : name = "wait_for"
  · rw [if_pos h9]
    cases hk : args.surplus ["selector", "timeout"]
    · cases hs : args.selector
      · simp [statusTags]
      · dsimp only
        rw [exec_wrap_fst_status]; exact wait_for_status ..
    · simp [statusTags]
  rw [if_neg h9]
  by_cases h10 : name = "get_url"
  · rw [if_pos h10]
    cases hk : args.surplus []
    · dsimp only
      rw [exec_wrap_fst_status]; exact exec_get_url_status ..
    · simp [statusTags]
  rw [if_neg h10]
  by_cases h11 : name = "get_title"
  · rw [if_pos h11]
    cases hk : args.surplus []
    · dsimp only
      rw [exec_wrap_fst_status]; exact exec_get_title_status ..
    · simp [statusTags]
  rw [if_neg h11]
  simp [statusTags]

lemma call_tool_status (env : Env) (s : ExecState) (tool : Option String)
    (args : Args) : (call_tool env s tool args).1.status ∈ statusTags := by
  unfold call_tool
  exact call_tool_named_status env s (pyStr tool) args

lemma exec_screenshot_snd (env : Env) (s : ExecState) (p : Option String) (fp : Bool) :
    (screenshot env s p fp).2 = s := by
  simp only [screenshot]
  by_cases hp : s.page.isNone
  · simp [hp]
  · rcases h : env.shot (match p with
      | some q => if q = "" then env.defaultShotName else q
      | none => env.defaultShotName) fp with e | a <;>
      simp [hp, h]

lemma screenshot_base64_snd (env : Env) (s : ExecState) (fp : Bool) :
    (screenshot_base64 env s fp).2 = s := by
  unfold screenshot_base64
  by_cases hp : s.page.isNone <;>
    rcases h : env.shotBytes fp with e | b <;>
    simp [hp, h]

lemma exec_click_snd (env : Env) (s : ExecState) (sel : String) :
    (click env s sel).2 = s := by
  unfold click
  by_cases hp : s.page.isNone <;>
    rcases h : env.doClick sel with e | a <;>
    simp [hp, h]

lemma exec_type_text_snd (env : Env) (s : ExecState) (sel t : String) :
    (type_text env s sel t).2 = s := by
  unfold type_text
  by_cases hp : s.page.isNone <;>
    rcases h : env.doFill sel t with e | a <;>
    simp [hp, h]

lemma exec_get_text_snd (env : Env) (s : ExecState) (sel : String) :
    (get_text env s sel).2 = s := by
  unfold get_text
  by_cases hp : s.page.isNone <;>
    rcases h : env.textContent sel with e | a <;>
    simp [hp, h]

lemma wait_for_snd (env : Env) (s : ExecState) (sel : String) (t : Nat) :
    (wait_for env s sel t).2 = s := by
  unfold wait_for
  by_cases hp : s.page.isNone <;>
    rcases h : env.waitSel sel t with e | a <;>
    simp [hp, h]

lemma exec_get_url_snd (env : Env) (s : ExecState) : (get_url env s).2 = s := by
  unfold get_url
  by_cases hp : s.page.isNone <;> simp [hp]

lemma exec_get_title_snd (env : Env) (s : ExecState) : (get_title env s).2 = s := by
  unfold get_title
  by_cases hp : s.page.isNone <;>
    rcases h : env.pageTitle with e | t <;>
    simp [hp, h]

lemma launch_browser_inv (env : Env) (s : ExecState) (h : Bool)
    (hinv : inv s) : inv (launch_browser env s h).2 := by
  unfold launch_browser
  rcases h1 : env.pwStart with e | pwh <;>
    rcases h2 : env.launch with e | bh <;>
    rcases h3 : env.newPage with e | ph <;>
    by_cases hb : s.browser.isSome <;>
    simp_all [inv]

lemma exec_close_browser_inv (env : Env) (s : ExecState) (hinv : inv s) :
    inv (close_browser env s).2 := by
  unfold close_browser
  rcases h1 : env.browserClose with e | u <;>
    by_cases hb : s.browser.isSome <;>
    simp_all [inv]

lemma exec_navigate_snd (env : Env) (s : ExecState) (u : String) :
    (navigate env s u).2 =
      if s.page.isNone then (launch_browser env s false).2 else s := by
  simp only [navigate]
  by_cases hp : s.page.isNone
  · rcases hsb : launch_browser env s false with ⟨hr, s1⟩
    cases hr
    · simp only [hp, if_true, hsb]
      rcases h1 : s1.page with _ | p <;>
        rcases h2 : env.goto u with e | a <;>
        rcases h3 : env.pageTitle with e2 | t <;>
        simp [h1, h2, h3]
    · simp [hp, hsb]
  · simp only [hp, if_false, Bool.false_eq_true]
    rcases h1 : s.page with _ | p <;>
      rcases h2 : env.goto u with e | a <;>
      rcases h3 : env.pageTitle with e2 | t <;>
      simp [hp, h1, h2, h3]

lemma exec_navigate_inv (env : Env) (s : ExecState) (u : String) (hinv : inv s) :
    inv (navigate env s u).2 := by
  rw [exec_navigate_snd]
  by_cases hp : s.page.isNone
  · rw [if_pos hp]
    exact launch_browser_inv env s false hinv
  · rw [if_neg hp]
    exact hinv

lemma call_tool_named_inv (env : Env) (s : ExecState) (name : String)
    (args : Args) (hinv : inv s) : inv (call_tool_named env s name args).2 := by
  unfold call_tool_named
  by_cases h1 : name = "launch"
  · rw [if_pos h1]
    cases hk : args.surplus ["headless"]
    · dsimp only
      rw [exec_wrap_snd]; exact launch_browser_inv _ _ _ hinv
    · exact hinv
  rw [if_neg h1]
  by_cases h2 : name = "close"
  · rw [if_pos h2]
    cases hk : args.surplus []
    · dsimp only
      rw [exec_wrap_snd]; exact exec_close_browser_inv _ _ hinv
    · exact hinv
  rw [if_neg h2]
  by_cases h3 : name = "navigate"
  · rw [if_pos h3]
    cases hk : args.surplus ["url"]
    · cases hu : args.url
      · exact hinv
      · dsimp only
        rw [exec_wrap_snd]; exact exec_navigate_inv _ _ _ hinv
    · exact hinv
  rw [if_neg h3]
  by_cases h4 : name = "screenshot"
  · rw [if_pos h4]
    cases hk : args.surplus ["path", "full_page"]
    · dsimp only
      rw [exec_wrap_snd, exec_screenshot_snd]; exact hinv
    · exact hinv
  rw [if_neg h4]
  by_cases h5 : name = "screenshot_base64"
  · rw [if_pos h5]
    cases hk : args.surplus ["full_page"]
    · dsimp only
      rw [exec_wrap_snd, screenshot_base64_snd]; exact hinv
    · exact hinv
  rw [if_neg h5]
  by_cases h6 : name = "click"
  · rw [if_pos h6]
    cases hk : args.surplus ["selector"]
    · cases hs : args.selector
      · exact hinv
      · dsimp only
        rw [exec_wrap_snd, exec_click_snd]; exact hinv
    · exact hinv
  rw [if_neg h6]
  by_cases h7 : name = "type"
  · rw [if_pos h7]
    cases hk : args.surplus ["selector", "text"]
    · cases hs : args.selector <;> cases ht : args.text
      · exact hinv
      · exact hinv
      · exact hinv
      · dsimp only
        rw [exec_wrap_snd, exec_type_text_snd]; exact hinv
    · exact hinv
  rw [if_neg h7]
  by_cases h8 : name = "get_text"
  · rw [if_pos h8]
    cases hk : args.surplus ["selector"]
    · cases hs : args.selector
      · exact hinv
      · dsimp only
        rw [exec_wrap_snd, exec_get_text_snd]; exact hinv
    · exact hinv
  rw [if_neg h8]
  by_cases h9 : name = "wait_for"
  · rw [if_pos h9]
    cases hk : args.surplus ["selector", "timeout"]
    · cases hs : args.selector
      · exact hinv
      · dsimp only
        rw [exec_wrap_snd, wait_for_snd]; exact hinv
    · exact hinv
  rw [if_neg h9]
  by_cases h10 : name = "get_url"
  · rw [if_pos h10]
    cases hk : args.surplus []
    · dsimp only
      rw [exec_wrap_snd, exec_get_url_snd]; exact hinv
    · exact hinv
  rw [if_neg h10]
  by_cases h11 : name = "get_title"
  · rw [if_pos h11]
    cases hk : args.surplus []
    · dsimp only
      rw [exec_wrap_snd, exec_get_title_snd]; exact hinv
    · exact hinv
  rw [if_neg h11]
  exact hinv

lemma call_tool_inv (env : Env) (s : ExecState) (tool : Option String)
    (args : Args) (hinv : inv s) : inv (call_tool env s tool args).2 := by
  unfold call_tool
  exact call_tool_named_inv env s (pyStr tool) args hinv

end Executor

namespace Batch

lemma batchLoop_fst (rs : List CrawlResult) :
    (batchLoop rs).1 = (rs.filter (fun r => r.success)).map mkEntry := by
  induction rs with
  | nil => rfl
  | cons r rs ih => by_cases h : r.success <;> simp [batchLoop, h, ih]

lemma batchLoop_snd (rs : List CrawlResult) :
    (batchLoop rs).2 = (rs.filter (fun r => !r.success)).map
      (fun r => { url := r.url, error := r.error_message : FailedEntry }) := by
  induction rs with
  | nil => rfl
  | cons r rs ih => by_cases h : r.success <;> simp [batchLoop, h, ih]

lemma filter_length_split (rs : List CrawlResult) :
    (rs.filter (fun r => r.success)).length
      + (rs.filter (fun r => !r.success)).length = rs.length := by
  induction rs with
  | nil => rfl
  | cons r rs ih => by_cases h : r.success <;> simp [h, ih] <;> omega

end Batch

/-! ### Claim theorems -/

/-- C1: for every dispatched request — any tool name, any argument
mapping, and any outcome of the underlying browser calls, including any
raised exception, which the `Env` oracle quantifies over — both
`BrowserServer.handle_call` and the executor's `call_tool` return a
response whose `status` is one of the defined tags (`success`, `error`,
`already_running`, `not_running`); a handler failure is converted into a
status/message pair, and since both dispatchers are total Lean functions
no exception propagates past them. -/
theorem dispatch_status_always_defined (env : Env) (s : Server.BrowserState)
    (s2 : Executor.ExecState) (tool : Option String) (args : Args) :
    (Server.handle_call env s tool args).1.status ∈ statusTags ∧
    (Executor.call_tool env s2 tool args).1.status ∈ statusTags :=
  ⟨Server.handle_call_status env s tool args,
   Executor.call_tool_status env s2 tool args⟩

/-- C2: `start`/`launch` is idempotent — with a browser handle present both
variants return `already_running` and leave the state (browser, page, and
playwright handles) completely unchanged, for every oracle (so no external
call is even attempted); with no browser running and the three launch
steps succeeding, they launch the browser and create exactly one page. -/
theorem start_idempotent :
    (∀ (env : Env) (s : Server.BrowserState) (h : Bool), s.browser.isSome →
      Server.start_browser env s h = (.ok { status := "already_running" }, s)) ∧
    (∀ (env : Env) (s : Executor.ExecState) (h : Bool), s.browser.isSome →
      Executor.launch_browser env s h =
        (.ok { status := "already_running", message := some "Browser already launched" }, s)) ∧
    (∀ (env : Env) (s : Server.BrowserState) (h : Bool) (pwh bh ph : Nat),
      s.browser = none → env.pwStart = .ok pwh → env.launch = .ok bh →
      env.newPage = .ok ph →
      Server.start_browser env s h =
        (.ok { status := "success", message := some "Browser launched" },
         { pw := some pwh, browser := some bh, page := some ph })) ∧
    (∀ (env : Env) (s : Executor.ExecState) (h : Bool) (pwh bh ph : Nat),
      s.browser = none → env.pwStart = .ok pwh → env.launch = .ok bh →
      env.newPage = .ok ph →
      Executor.launch_browser env s h =
        (.ok { status := "success", message := some "Browser launched" },
         { browser := some bh, page := some ph })) := by
  refine ⟨?_, ?_, ?_, ?_⟩
  · intro env s h hb
    unfold Server.start_browser
    simp [hb]
  · intro env s h hb
    unfold Executor.launch_browser
    simp [hb]
  · intro env s h pwh bh ph hb hpw hl hp
    unfold Server.start_browser
    simp [hb, hpw, hl, hp]
  · intro env s h pwh bh ph hb hpw hl hp
    unfold Executor.launch_browser
    simp [hb, hpw, hl, hp]

/-- C2 witness: evaluating both variants at concrete states — a second
`start` on a running Session returns `already_running` and the identical
state; a `start` on the empty Session launches and opens one page. -/
theorem start_idempotent_witness :
    Server.start_browser envOK runningState false =
      (.ok { status := "already_running" }, runningState) ∧
    Executor.launch_browser envOK runningExec false =
      (.ok { status := "already_running", message := some "Browser already launched" }, runningExec) ∧
    Server.start_browser envOK Server.initState false =
      (.ok { status := "success", message := some "Browser launched" },
       { pw := some 1, browser := some 2, page := some 3 }) ∧
    Executor.launch_browser envOK Executor.initState false =
      (.ok { status := "success", message := some "Browser launched" },
       { browser := some 2, page := some 3 }) :=
  ⟨start_idempotent.1 envOK runningState false rfl,
   start_idempotent.2.1 envOK runningExec false rfl,
   start_idempotent.2.2.1 envOK Server.initState false 1 2 3 rfl rfl rfl rfl,
   start_idempotent.2.2.2 envOK Executor.initState false 1 2 3 rfl rfl rfl rfl⟩

/-- C3 counterexample: on the server, `close_browser` called with no
browser running returns status `success`, not `not_running` — the claim's
`not_running` tag is produced only by the executor variant. -/
theorem close_not_running_counterexample :
    (Server.close_browser envOK Server.initState).1 = .ok { status := "success" } ∧
    "success" ≠ "not_running" :=
  ⟨rfl, by decide⟩

/-- C3 amended: calling `close` when no browser is running is safe and
leaves the state unchanged with no error — the executor variant returns
status `not_running`, while the server variant returns status `success`;
when a browser is running (and the driver calls succeed) both variants
tear down the page and process handles, returning to the empty state. -/
theorem close_safe_amended :
    (∀ (env : Env) (s : Server.BrowserState), s.browser = none → s.pw = none →
      Server.close_browser env s = (.ok { status := "success" }, s)) ∧
    (∀ (env : Env) (s : Executor.ExecState), s.browser = none →
      Executor.close_browser env s =
        (.ok { status := "not_running", message := some "No browser to close" }, s)) ∧
    (∀ (env : Env) (s : Server.BrowserState), s.browser.isSome →
      env.browserClose = .ok () → env.pwStop = .ok () →
      Server.close_browser env s = (.ok { status := "success" }, Server.initState)) ∧
    (∀ (env : Env) (s : Executor.ExecState), s.browser.isSome →
      env.browserClose = .ok () →
      Executor.close_browser env s =
        (.ok { status := "success", message := some "Browser closed" }, Executor.initState)) := by
  refine ⟨?_, ?_, ?_, ?_⟩
  · intro env s hb hpw
    unfold Server.close_browser
    simp [hb, hpw]
  · intro env s hb
    unfold Executor.close_browser
    simp [hb]
  · intro env s hb hc hpw
    unfold Server.close_browser
    by_cases hp : s.pw.isSome <;>
      simp [hb, hc, hpw, hp, Server.initState] <;>
      (first
        | rfl
        | (cases h : s.pw
           · rfl
           · rw [h] at hp; simp at hp))
  · intro env s hb hc
    unfold Executor.close_browser
    simp [hb, hc, Executor.initState]

/-- C3 amended witness: concrete evaluations — `close` on the empty state
(server: `success`, executor: `not_running`, both unchanged) and on the
running state (both tear down to the empty state). -/
theorem close_safe_amended_witness :
    Server.close_browser envOK Server.initState =
      (.ok { status := "success" }, Server.initState) ∧
    Executor.close_browser envOK Executor.initState =
      (.ok { status := "not_running", message := some "No browser to close" },
       Executor.initState) ∧
    Server.close_browser envOK runningState =
      (.ok { status := "success" }, Server.initState) ∧
    Executor.close_browser envOK runningExec =
      (.ok { status := "success", message := some "Browser closed" }, Executor.initState) :=
  ⟨close_safe_amended.1 envOK Server.initState rfl rfl,
   close_safe_amended.2.1 envOK Executor.initState rfl,
   close_safe_amended.2.2.1 envOK runningState rfl rfl rfl,
   close_safe_amended.2.2.2 envOK runningExec rfl rfl⟩

/-- C4: with no page open, `navigate` lazily starts the browser and then
proceeds (here: the launch steps and the navigation succeed, so it returns
`success` with the page's URL and title and a freshly created page), in
both variants; every other page-scoped operation dispatched while no page
exists returns a response with status `error` and the message stating that
no page is open, leaving the state unchanged — and the dispatchers are
total, so nothing is raised past them. For the server this holds for every
`args` mapping (its handler lambdas read fixed keys); for the executor it
holds for every request whose `args` carries only keys the tool's
signature accepts, since `fn(**args)` rejects a surplus keyword with a
`TypeError` (still an `error` response) before the no-page check runs. -/
theorem page_ops_without_page :
    (∀ (env : Env) (s : Server.BrowserState) (url : String) (pwh bh ph : Nat) (t : String),
      s.page = none → s.browser = none →
      env.pwStart = .ok pwh → env.launch = .ok bh → env.newPage = .ok ph →
      env.goto url = .ok () → env.pageTitle = .ok t →
      Server.navigate env s url =
        (.ok { status := "success", url := some env.pageUrl, title := some t },
         { pw := some pwh, browser := some bh, page := some ph })) ∧
    (∀ (env : Env) (s : Executor.ExecState) (url : String) (pwh bh ph : Nat) (t : String),
      s.page = none → s.browser = none →
      env.pwStart = .ok pwh → env.launch = .ok bh → env.newPage = .ok ph →
      env.goto url = .ok () → env.pageTitle = .ok t →
      Executor.navigate env s url =
        (.ok { status := "success", url := some env.pageUrl, title := some t },
         { browser := some bh, page := some ph })) ∧
    (∀ (env : Env) (s : Server.BrowserState) (args : Args) (sel t sc : String),
      s.page = none →
      Server.handle_call env s (some "screenshot") args =
        ({ status := "error", message := some "No page open" }, s) ∧
      Server.handle_call env s (some "click") { args with selector := some sel } =
        ({ status := "error", message := some "No page open" }, s) ∧
      Server.handle_call env s (some "type")
          { args with selector := some sel, text := some t } =
        ({ status := "error", message := some "No page open" }, s) ∧
      Server.handle_call env s (some "get_text") { args with selector := some sel } =
        ({ status := "error", message := some "No page open" }, s) ∧
      Server.handle_call env s (some "get_url") args =
        ({ status := "error", message := some "No page open" }, s) ∧
      Server.handle_call env s (some "get_title") args =
        ({ status := "error", message := some "No page open" }, s) ∧
      Server.handle_call env s (some "evaluate") { args with script := some sc } =
        ({ status := "error", message := some "No page open" }, s)) ∧
    (∀ (env : Env) (s : Executor.ExecState) (path : Option String)
        (fp : Option Bool) (sel t : String),
      s.page = none →
      Executor.call_tool env s (some "screenshot") { path := path, full_page := fp } =
        ({ status := "error", message := some "No page open. Navigate first." }, s) ∧
      Executor.call_tool env s (some "click") { selector := some sel } =
        ({ status := "error", message := some "No page open" }, s) ∧
      Executor.call_tool env s (some "type") { selector := some sel, text := some t } =
        ({ status := "error", message := some "No page open" }, s) ∧
      Executor.call_tool env s (some "get_text") { selector := some sel } =
        ({ status := "error", message := some "No page open" }, s) ∧
      Executor.call_tool env s (some "get_url") {} =
        ({ status := "error", message := some "No page open" }, s) ∧
      Executor.call_tool env s (some "get_title") {} =
        ({ status := "error", message := some "No page open" }, s)) := by
  refine ⟨?_, ?_, ?_, ?_⟩
  · intro env s url pwh bh ph t hp hb h1 h2 h3 hg ht
    unfold Server.navigate Server.start_browser
    simp [hp, hb, h1, h2, h3, hg, ht]
  · intro env s url pwh bh ph t hp hb h1 h2 h3 hg ht
    unfold Executor.navigate Executor.launch_browser
    simp [hp, hb, h1, h2, h3, hg, ht]
  · intro env s args sel t sc hp
    unfold Server.handle_call Server.handle_call_named
    refine ⟨?_, ?_, ?_, ?_, ?_, ?_, ?_⟩ <;>
      simp [pyStr, Server.wrap, Server.screenshot, Server.click, Server.type_text,
        Server.get_text, Server.get_url, Server.get_title, Server.evaluate, hp]
  · intro env s path fp sel t hp
    unfold Executor.call_tool Executor.call_tool_named
    refine ⟨?_, ?_, ?_, ?_, ?_, ?_⟩
    · cases path <;> cases fp <;>
        simp [pyStr, Args.surplus, Args.keys, Executor.wrap, Executor.screenshot, hp]
    · simp [pyStr, Args.surplus, Args.keys, Executor.wrap, Executor.click, hp]
    · simp [pyStr, Args.surplus, Args.keys, Executor.wrap, Executor.type_text, hp]
    · simp [pyStr, Args.surplus, Args.keys, Executor.wrap, Executor.get_text, hp]
    · simp [pyStr, Args.surplus, Args.keys, Executor.wrap, Executor.get_url, hp]
    · simp [pyStr, Args.surplus, Args.keys, Executor.wrap, Executor.get_title, hp]

/-- C4 witness: concrete evaluations from the empty state — `navigate`
lazily launches and succeeds; each other page-scoped operation returns the
no-page `error` response with the state unchanged. -/
theorem page_ops_without_page_witness :
    Server.navigate envOK Server.initState "https://example.com" =
      (.ok { status := "success", url := some "https://example.com/",
             title := some "Example Domain" },
       { pw := some 1, browser := some 2, page := some 3 }) ∧
    Executor.navigate envOK Executor.initState "https://example.com" =
      (.ok { status := "success", url := some "https://example.com/",
             title := some "Example Domain" },
       { browser := some 2, page := some 3 }) ∧
    Server.handle_call envOK Server.initState (some "get_title") {} =
      ({ status := "error", message := some "No page open" }, Server.initState) ∧
    Executor.call_tool envOK Executor.initState (some "screenshot") {} =
      ({ status := "error", message := some "No page open. Navigate first." },
       Executor.initState) :=
  ⟨page_ops_without_page.1 envOK Server.initState "https://example.com" 1 2 3
      "Example Domain" rfl rfl rfl rfl rfl rfl rfl,
   page_ops_without_page.2.1 envOK Executor.initState "https://example.com" 1 2 3
      "Example Domain" rfl rfl rfl rfl rfl rfl rfl,
   (page_ops_without_page.2.2.1 envOK Server.initState {} "x" "y" "z" rfl).2.2.2.2.2.1,
   (page_ops_without_page.2.2.2 envOK Executor.initState none none "x" "y" rfl).1⟩

/-- C5: for every tool name not present in the static registry, both
dispatchers return status `error` with message exactly
`Unknown tool: <name>`, invoke no handler (every oracle gives the same
result), and leave the state unchanged. -/
theorem unknown_tool_error :
    (∀ (env : Env) (s : Server.BrowserState) (name : String) (args : Args),
      name ∉ Server.registry →
      Server.handle_call env s (some name) args =
        ({ status := "error", message := some ("Unknown tool: " ++ name) }, s)) ∧
    (∀ (env : Env) (s : Executor.ExecState) (name : String) (args : Args),
      name ∉ Executor.registry →
      Executor.call_tool env s (some name) args =
        ({ status := "error", message := some ("Unknown tool: " ++ name) }, s)) := by
  constructor
  · intro env s name args hmem
    simp only [Server.registry, List.mem_cons, List.not_mem_nil, or_false, not_or] at hmem
    obtain ⟨h1, h2, h3, h4, h5, h6, h7, h8, h9, h10⟩ := hmem
    unfold Server.handle_call Server.handle_call_named
    simp [pyStr, h1, h2, h3, h4, h5, h6, h7, h8, h9, h10]
  · intro env s name args hmem
    simp only [Executor.registry, List.mem_cons, List.not_mem_nil, or_false, not_or] at hmem
    obtain ⟨h1, h2, h3, h4, h5, h6, h7, h8, h9, h10, h11⟩ := hmem
    unfold Executor.call_tool Executor.call_tool_named
    simp [pyStr, h1, h2, h3, h4, h5, h6, h7, h8, h9, h10, h11]

/-- C5 witness: the unregistered name `bogus` yields exactly
`Unknown tool: bogus` from both dispatchers with the state unchanged. -/
theorem unknown_tool_error_witness :
    Server.handle_call envOK Server.initState (some "bogus") {} =
      ({ status := "error", message := some "Unknown tool: bogus" }, Server.initState) ∧
    Executor.call_tool envOK Executor.initState (some "bogus") {} =
      ({ status := "error", message := some "Unknown tool: bogus" }, Executor.initState) :=
  ⟨unknown_tool_error.1 envOK Server.initState "bogus" {} (by decide),
   unknown_tool_error.2 envOK Executor.initState "bogus" {} (by decide)⟩

/-- C6: `send_command` converts every failure to an `error` response and is
total (never raises past its boundary): a refused connection — detected on
the single connection attempt, there is no retry construct — yields the
synthetic start-the-server message; any other transport exception and any
reply-parse failure yield an `error` response carrying the failure text;
a parsed reply is returned verbatim. -/
theorem send_command_error_conversion :
    send_command Wire.refused =
      { status := "error",
        message := some "Server not running. Start with: python server.py start" } ∧
    (∀ e, send_command (Wire.exn e) = { status := "error", message := some e }) ∧
    (∀ e, send_command (Wire.recv (Except.error e)) =
      { status := "error", message := some e }) ∧
    (∀ r, send_command (Wire.recv (Except.ok r)) = r) :=
  ⟨rfl, fun _ => rfl, fun _ => rfl, fun _ => rfl⟩

/-- C7: a `stop` control command is the only transition that terminates the
server — it clears the running flag (and is acknowledged); every other
incoming payload (other `cmd` values, tool calls, malformed requests)
leaves the running flag untouched, so a trace without a `stop` request
keeps the server running; once the flag is cleared the accept loop serves
nothing further; and the resulting shutdown closes the listening socket,
tears down the Session (browser and page), and removes the pid file. -/
theorem stop_only_termination :
    (∀ (env : Env) (st : Server.ServerState) (tool : Option String) (args : Args),
      Server.handle_client env st (.req (some "stop") tool args) =
        ({ status := "success", message := some "Server stopping" },
         { st with running := false })) ∧
    (∀ (env : Env) (st : Server.ServerState) (cmd tool : Option String) (args : Args),
      cmd ≠ some "stop" →
      (Server.handle_client env st (.req cmd tool args)).2.running = st.running) ∧
    (∀ (env : Env) (st : Server.ServerState) (e : String),
      (Server.handle_client env st (.malformed e)).2.running = st.running) ∧
    (∀ (env : Env) (st : Server.ServerState) (cs : List Server.Incoming),
      st.running = true →
      (∀ c ∈ cs, ∀ (tool : Option String) (args : Args),
        c ≠ .req (some "stop") tool args) →
      (Server.serve env st cs).1.running = true) ∧
    (∀ (env : Env) (st : Server.ServerState) (cs : List Server.Incoming),
      st.running = false → Server.serve env st cs = (st, [])) ∧
    (∀ (env : Env) (sess : Server.BrowserState) (w : Server.World),
      Server.inv sess → env.browserClose = .ok () → env.pwStop = .ok () →
      Server.server_shutdown env sess w =
        .ok (Server.initState, { pidFile := none, sockOpen := false })) ∧
    (∀ (env : Env) (pid : Nat) (w : Server.World) (cs : List Server.Incoming),
      env.browserClose = .ok () → env.pwStop = .ok () →
      (Server.serve env { sess := Server.initState, running := true } cs).1.running = false →
      Server.run_server env pid w cs =
        ((Server.serve env { sess := Server.initState, running := true } cs).2,
         some (.ok (Server.initState, { pidFile := none, sockOpen := false })))) := by
  refine ⟨?_, ?_, ?_, ?_, ?_, ?_, ?_⟩
  · intro env st tool args
    simp [Server.handle_client]
  · intro env st cmd tool args h
    exact Server.handle_client_running env st cmd tool args h
  · intro env st e
    rfl
  · intro env st cs hr hns
    induction cs generalizing st with
    | nil => simpa [Server.serve] using hr
    | cons c cs ih =>
      have hrun : (Server.handle_client env st c).2.running = true := by
        cases c with
        | malformed e => simpa [Server.handle_client] using hr
        | req cmd tool args =>
          have hne : cmd ≠ some "stop" := by
            intro hcmd
            exact hns (.req cmd tool args) (List.mem_cons_self _ _) tool args
              (by rw [hcmd])
          rw [Server.handle_client_running env st cmd tool args hne]
          exact hr
      simp only [Server.serve, hr, if_true]
      exact ih (Server.handle_client env st c).2 hrun
        (fun c hc => hns c (List.mem_cons_of_mem _ hc))
  · intro env st cs h
    exact Server.serve_not_running env st cs h
  · intro env sess w hinv hc hpw
    unfold Server.server_shutdown
    rw [Server.close_browser_clears env sess hinv hc hpw]
  · intro env pid w cs hc hpw hstop
    have hinv : Server.inv
        (Server.serve env { sess := Server.initState, running := true } cs).1.sess :=
      Server.serve_inv env _ cs (by intro h; exact h)
    unfold Server.run_server
    rcases hserve : Server.serve env { sess := Server.initState, running := true } cs
      with ⟨stF, rs⟩
    rw [hserve] at hstop hinv
    dsimp only at hstop hinv
    simp only [hserve, hstop, Bool.false_eq_true, if_false]
    unfold Server.server_shutdown
    rw [Server.close_browser_clears env _ hinv hc hpw]

/-- C7 witness: on a concrete trace — one `get_url` call followed by a
`stop` — the non-stop request leaves the server running, the stop request
clears the flag, and the whole `run_server` ends with the Session torn
down, the socket closed, and the pid file removed. -/
theorem stop_only_termination_witness :
    Server.handle_client envOK { sess := Server.initState, running := true }
        (.req (some "stop") none {}) =
      ({ status := "success", message := some "Server stopping" },
       { sess := Server.initState, running := false }) ∧
    (Server.handle_client envOK { sess := Server.initState, running := true }
        (.req none (some "get_url") {})).2.running = true ∧
    Server.run_server envOK 7 { pidFile := none, sockOpen := false }
        [.req none (some "get_url") {}, .req (some "stop") none {}] =
      ((Server.serve envOK { sess := Server.initState, running := true }
          [.req none (some "get_url") {}, .req (some "stop") none {}]).2,
       some (.ok (Server.initState, { pidFile := none, sockOpen := false }))) :=
  ⟨stop_only_termination.1 envOK { sess := Server.initState, running := true } none {},
   stop_only_termination.2.1 envOK { sess := Server.initState, running := true }
      none (some "get_url") {} (by decide),
   stop_only_termination.2.2.2.2.2.2 envOK 7 { pidFile := none, sockOpen := false }
      [.req none (some "get_url") {}, .req (some "stop") none {}] rfl rfl rfl⟩

/-- C8: `main`'s `start` branch — when the pid file names a live process,
it announces the running server and exits with code 0 without constructing
a server, leaving the pid file in place; when the pid file names a dead
process the stale file is unlinked and startup proceeds; with no pid file
startup proceeds directly. -/
theorem start_liveness_check :
    (∀ (pid : Nat) (alive : Nat → Bool), alive pid = true →
      Server.main_start (some pid) alive =
        (.alreadyRunning pid, some 0, some pid)) ∧
    (∀ (pid : Nat) (alive : Nat → Bool), alive pid = false →
      Server.main_start (some pid) alive = (.startServer, none, none)) ∧
    (∀ (alive : Nat → Bool),
      Server.main_start none alive = (.startServer, none, none)) := by
  refine ⟨?_, ?_, ?_⟩
  · intro pid alive h
    simp [Server.main_start, h]
  · intro pid alive h
    simp [Server.main_start, h]
  · intro alive
    rfl

/-- C8 witness: with pid 7 recorded and alive the start is a no-op with
exit code 0; with pid 7 recorded but dead the record is dropped and
startup proceeds. -/
theorem start_liveness_check_witness :
    Server.main_start (some 7) (fun _ => true) =
      (.alreadyRunning 7, some 0, some 7) ∧
    Server.main_start (some 7) (fun _ => false) =
      (.startServer, none, none) :=
  ⟨start_liveness_check.1 7 (fun _ => true) rfl,
   start_liveness_check.2.1 7 (fun _ => false) rfl⟩

/-- C9: batch processing of `N` crawl results of which `M < N` failed
yields a success-list of length `N − M` and a failed-list of length `M`
(matching `success_count`/`failed_count`), with each failed entry
recording exactly the URL and error message of a failed result in order;
`crawl_batch`'s shaping is a total function, so one URL's failure never
aborts the processing of the rest. -/
theorem batch_partition (rs : List Batch.CrawlResult) (N M : Nat)
    (hN : rs.length = N)
    (hM : (rs.filter (fun r => !r.success)).length = M)
    (hlt : M < N) :
    (Batch.crawl_batch rs).results.length = N - M ∧
    (Batch.crawl_batch rs).failed.length = M ∧
    (Batch.crawl_batch rs).success_count = N - M ∧
    (Batch.crawl_batch rs).failed_count = M ∧
    (Batch.crawl_batch rs).failed =
      (rs.filter (fun r => !r.success)).map
        (fun r => { url := r.url, error := r.error_message }) := by
  have hsplit := Batch.filter_length_split rs
  have hres : (Batch.crawl_batch rs).results.length = N - M := by
    simp only [Batch.crawl_batch, Batch.batchLoop_fst, List.length_map]
    omega
  have hfail : (Batch.crawl_batch rs).failed =
      (rs.filter (fun r => !r.success)).map
        (fun r => { url := r.url, error := r.error_message }) := by
    simp [Batch.crawl_batch, Batch.batchLoop_snd]
  refine ⟨hres, ?_, ?_, ?_, hfail⟩
  · rw [hfail, List.length_map, hM]
  · simp only [Batch.crawl_batch, Batch.batchLoop_fst, List.length_map]
    omega
  · simp only [Batch.crawl_batch, Batch.batchLoop_snd, List.length_map]
    exact hM

/-- C9 witness: three crawl results with one failure give a success-list of
length 2 and a failed-list of length 1 recording the unreachable URL and
its error. -/
theorem batch_partition_witness :
    (Batch.crawl_batch [crawlOK, crawlFail, crawlOK]).results.length = 2 ∧
    (Batch.crawl_batch [crawlOK, crawlFail, crawlOK]).failed.length = 1 ∧
    (Batch.crawl_batch [crawlOK, crawlFail, crawlOK]).failed =
      [{ url := "https://unreachable.invalid",
         error := "net::ERR_NAME_NOT_RESOLVED" }] := by
  have h := batch_partition [crawlOK, crawlFail, crawlOK] 3 1 rfl
    (by decide) (by decide)
  refine ⟨h.1, h.2.1, ?_⟩
  rw [h.2.2.2.2]
  rfl

/-- C10: every Session operation, dispatched through either dispatcher and
under every oracle outcome (including partial launch failures), preserves
the invariant that a page handle exists only when a browser handle exists;
the invariant is likewise preserved across any sequence of served
connections; and in a state with no browser (hence, by the invariant, no
page) every page-scoped operation other than `navigate` returns a response
with status `error`. -/
theorem session_invariant :
    (∀ (env : Env) (s : Server.BrowserState) (tool : Option String) (args : Args),
      Server.inv s → Server.inv (Server.handle_call env s tool args).2) ∧
    (∀ (env : Env) (st : Server.ServerState) (cs : List Server.Incoming),
      Server.inv st.sess → Server.inv (Server.serve env st cs).1.sess) ∧
    (∀ (env : Env) (s : Executor.ExecState) (tool : Option String) (args : Args),
      Executor.inv s → Executor.inv (Executor.call_tool env s tool args).2) ∧
    (∀ (env : Env) (s : Server.BrowserState) (name : String) (args : Args),
      s.browser = none → Server.inv s → name ∈ Server.pageScoped →
      (Server.handle_call env s (some name) args).1.status = "error") ∧
    (∀ (env : Env) (s : Executor.ExecState) (name : String) (args : Args),
      s.browser = none → Executor.inv s → name ∈ Executor.pageScoped →
      (Executor.call_tool env s (some name) args).1.status = "error") := by
  refine ⟨?_, ?_, ?_, ?_, ?_⟩
  · intro env s tool args hinv
    exact Server.handle_call_inv env s tool args hinv
  · intro env st cs hinv
    exact Server.serve_inv env st cs hinv
  · intro env s tool args hinv
    exact Executor.call_tool_inv env s tool args hinv
  · intro env s name args hb hinv hmem
    have hp : s.page = none := by
      cases h : s.page
      · rfl
      · exact absurd (hinv (by rw [h]; rfl)) (by rw [hb]; simp)
    simp only [Server.pageScoped, List.mem_cons, List.not_mem_nil, or_false] at hmem
    unfold Server.handle_call Server.handle_call_named
    rcases hmem with rfl | rfl | rfl | rfl | rfl | rfl | rfl
    · simp [pyStr, Server.wrap, Server.screenshot, hp]
    · cases hsel : args.selector <;>
        simp [pyStr, Server.wrap, Server.click, hp, hsel]
    · cases hsel : args.selector <;> cases ht : args.text <;>
        simp [pyStr, Server.wrap, Server.type_text, hp, hsel, ht]
    · cases hsel : args.selector <;>
        simp [pyStr, Server.wrap, Server.get_text, hp, hsel]
    · simp [pyStr, Server.wrap, Server.get_url, hp]
    · simp [pyStr, Server.wrap, Server.get_title, hp]
    · cases hsc : args.script <;>
        simp [pyStr, Server.wrap, Server.evaluate, hp, hsc]
  · intro env s name args hb hinv hmem
    have hp : s.page = none := by
      cases h : s.page
      · rfl
      · exact absurd (hinv (by rw [h]; rfl)) (by rw [hb]; simp)
    simp only [Executor.pageScoped, List.mem_cons, List.not_mem_nil, or_false] at hmem
    unfold Executor.call_tool Executor.call_tool_named
    rcases hmem with rfl | rfl | rfl | rfl | rfl | rfl | rfl | rfl
    · cases hk : args.surplus ["path", "full_page"] <;>
        simp [pyStr, Executor.wrap, Executor.screenshot, hp, hk]
    · cases hk : args.surplus ["full_page"] <;>
        simp [pyStr, Executor.wrap, Executor.screenshot_base64, hp, hk]
    · cases hk : args.surplus ["selector"] <;> cases hsel : args.selector <;>
        simp [pyStr, Executor.wrap, Executor.click, hp, hk, hsel]
    · cases hk : args.surplus ["selector", "text"] <;> cases hsel : args.selector <;>
        cases ht : args.text <;>
        simp [pyStr, Executor.wrap, Executor.type_text, hp, hk, hsel, ht]
    · cases hk : args.surplus ["selector"] <;> cases hsel : args.selector <;>
        simp [pyStr, Executor.wrap, Executor.get_text, hp, hk, hsel]
    · cases hk : args.surplus ["selector", "timeout"] <;> cases hsel : args.selector <;>
        simp [pyStr, Executor.wrap, Executor.wait_for, hp, hk, hsel]
    · cases hk : args.surplus [] <;>
        simp [pyStr, Executor.wrap, Executor.get_url, hp, hk]
    · cases hk : args.surplus [] <;>
        simp [pyStr, Executor.wrap, Executor.get_title, hp, hk]

/-- C10 witness: concrete evaluations — the invariant holds initially and
after a dispatched `launch`, and from the empty state (null browser) a
dispatched `get_url` returns status `error` in both variants. -/
theorem session_invariant_witness :
    Server.inv Server.initState ∧
    Server.inv (Server.handle_call envOK Server.initState (some "launch") {}).2 ∧
    Executor.inv (Executor.call_tool envOK Executor.initState (some "launch") {}).2 ∧
    (Server.handle_call envOK Server.initState (some "get_url") {}).1.status = "error" ∧
    (Executor.call_tool envOK Executor.initState (some "get_url") {}).1.status = "error" :=
  ⟨fun h => by exact absurd h (by decide),
   session_invariant.1 envOK Server.initState (some "launch") {}
     (fun h => by exact absurd h (by decide)),
   session_invariant.2.2.1 envOK Executor.initState (some "launch") {}
     (fun h => by exact absurd h (by decide)),
   session_invariant.2.2.2.1 envOK Server.initState "get_url" {} rfl
     (fun h => by exact absurd h (by decide)) (by decide),
   session_invariant.2.2.2.2 envOK Executor.initState "get_url" {} rfl
     (fun h => by exact absurd h (by decide)) (by decide)⟩

end GoClaw
